import Mathlib

/-!
Shallow embedding of the complexityAI backend (src/main.py): a FastAPI
service with one health endpoint (GET /) and one analysis endpoint
(POST /analyze) that forwards a (language, code) pair to a remote
language model through a LangChain prompt/model/parser chain and relays
the parsed four-field complexity result, absorbing every failure into a
sentinel result of the same shape.

The remote model is opaque: it is modelled as a function from the
rendered prompt messages to either raised-exception text or returned
completion text.  Machinery supplied by libraries (the JSON output
parser, request-body validation, the HTTP status wrapping) is not under
src/ and is modelled from the spec, as marked on each definition.
-/

/-- Defines the expected JSON input from the React app (src/main.py,
class CodeInput). -/
structure CodeInput where
  code : String
  language : String
deriving DecidableEq, Repr

/-- Defines the JSON output structure wanted from the LLM (src/main.py,
class AnalysisOutput). -/
structure AnalysisOutput where
  time : String
  timeExplanation : String
  space : String
  spaceExplanation : String
deriving DecidableEq, Repr

/-- A JSON value, used to model the text returned by the remote model
once parsed, and the request body of POST /analyze.  Numeric lexemes are
kept raw: no claim depends on numeric values, only on whether a field is
a string. -/
inductive Json where
  | str : String → Json
  | num : String → Json
  | bool : Bool → Json
  | null : Json
  | arr : List Json → Json
  | obj : List (String × Json) → Json

/-- Serialization shape of an AnalysisOutput under the response model:
exactly the four declared text fields, in declaration order.  Modelled
from the spec: FastAPI serializes the response through
response_model=AnalysisOutput (src/main.py line 110). -/
def AnalysisOutput.toJson (r : AnalysisOutput) : Json :=
  Json.obj [("time", Json.str r.time),
            ("timeExplanation", Json.str r.timeExplanation),
            ("space", Json.str r.space),
            ("spaceExplanation", Json.str r.spaceExplanation)]

/-- Sentinel result returned when no model client was configured
(src/main.py lines 116-121). -/
def notConfiguredResult : AnalysisOutput :=
  ⟨"Error", "Server-side model is not configured.",
   "Error", "Please check the server logs."⟩

/-- Sentinel result returned when the chain invocation raised exception
text e (src/main.py lines 132-137). -/
def analysisFailureResult (e : String) : AnalysisOutput :=
  ⟨"Error", "Failed to analyze code. The code may be incomplete or invalid.",
   "Error", "Server error: " ++ e⟩

/-- The analyze_code handler body (src/main.py lines 110-137),
instrumented with its observable effects: the result value, the list of
chain invocations made (each carrying the submitted input), and the
diagnostic lines printed.  The chain is None when model initialization
failed at startup (src/main.py lines 90-93); a configured chain maps an
input to either the parsed output or raised-exception text. -/
def analyzeRun (chain : Option (CodeInput → Except String AnalysisOutput))
    (input : CodeInput) : AnalysisOutput × List CodeInput × List String :=
  match chain with
  | none => (notConfiguredResult, [], [])
  | some c =>
    match c input with
    | Except.ok r => (r, [input], [])
    | Except.error e =>
        (analysisFailureResult e, [input], ["Error during analysis: " ++ e])

/-- The value analyze_code returns to the caller (src/main.py lines
110-137). -/
def analyze_code (chain : Option (CodeInput → Except String AnalysisOutput))
    (input : CodeInput) : AnalysisOutput :=
  (analyzeRun chain input).1

/-- Whitespace as JSON defines it. -/
def isJsonWs (c : Char) : Bool :=
  [' ', '\t', '\n', '\r'].contains c

/-- Drop leading JSON whitespace. -/
def skipWs : List Char → List Char
  | [] => []
  | c :: rest => if isJsonWs c then skipWs rest else c :: rest

/-- Escape codes usable after a backslash in a JSON string literal,
paired with the characters they denote. -/
def escTable : List (Char × Char) :=
  [('n', '\n'), ('t', '\t'), ('r', '\r'),
   ('b', Char.ofNat 8), ('f', Char.ofNat 12),
   ('"', '"'), ('\\', '\\'), ('/', '/')]

/-- Decode one JSON string escape introduced by a backslash. -/
def escChar (e : Char) : Option Char :=
  match escTable.find? (fun p => p.1 == e) with
  | some p => some p.2
  | none => none

/-- Read the remaining characters of a JSON string literal (the opening
quote already consumed), returning its contents and the rest of the
input. -/
def parseStrAux : List Char → Option (List Char × List Char)
  | [] => none
  | '"' :: rest => some ([], rest)
  | '\\' :: rest =>
    match rest with
    | [] => none
    | e :: rest2 =>
      match escChar e with
      | none => none
      | some c =>
        match parseStrAux rest2 with
        | none => none
        | some (s, r) => some (c :: s, r)
  | c :: rest =>
    match parseStrAux rest with
    | none => none
    | some (s, r) => some (c :: s, r)

/-- Characters that may open a JSON number lexeme. -/
def isNumStart (c : Char) : Bool :=
  c == '-' || c.isDigit

/-- Characters that may continue a JSON number lexeme. -/
def isNumChar (c : Char) : Bool :=
  c == '-' || c == '+' || c == '.' || c == 'e' || c == 'E' || c.isDigit

mutual

/-- Parse one JSON value from the input, fuel-bounded on nesting depth
(each descent consumes at least one character, so fuel equal to the
input length always suffices). -/
def parseValue : Nat → List Char → Option (Json × List Char)
  | 0, _ => none
  | fuel + 1, s =>
    match skipWs s with
    | 't' :: 'r' :: 'u' :: 'e' :: rest => some (Json.bool true, rest)
    | 'f' :: 'a' :: 'l' :: 's' :: 'e' :: rest => some (Json.bool false, rest)
    | 'n' :: 'u' :: 'l' :: 'l' :: rest => some (Json.null, rest)
    | '"' :: rest =>
      match parseStrAux rest with
      | none => none
      | some (cs, rest2) => some (Json.str (String.mk cs), rest2)
    | '\x7b' :: rest =>
      match skipWs rest with
      | '\x7d' :: rest2 => some (Json.obj [], rest2)
      | rest2 => parseMembers fuel rest2 []
    | '[' :: rest =>
      match skipWs rest with
      | ']' :: rest2 => some (Json.arr [], rest2)
      | rest2 => parseItems fuel rest2 []
    | c :: rest =>
      if isNumStart c then
        some (Json.num (String.mk ((c :: rest).takeWhile isNumChar)),
              (c :: rest).dropWhile isNumChar)
      else none
    | [] => none

/-- Parse the members of a JSON object after its opening brace, the
pairs read so far accumulated in order. -/
def parseMembers : Nat → List Char → List (String × Json) →
    Option (Json × List Char)
  | 0, _, _ => none
  | fuel + 1, s, acc =>
    match skipWs s with
    | '"' :: rest =>
      match parseStrAux rest with
      | none => none
      | some (key, rest2) =>
        match skipWs rest2 with
        | ':' :: rest3 =>
          match parseValue fuel rest3 with
          | none => none
          | some (v, rest4) =>
            match skipWs rest4 with
            | ',' :: rest5 => parseMembers fuel rest5 (acc ++ [(String.mk key, v)])
            | '\x7d' :: rest5 => some (Json.obj (acc ++ [(String.mk key, v)]), rest5)
            | _ => none
        | _ => none
    | _ => none

/-- Parse the items of a JSON array after its opening bracket, the items
read so far accumulated in order. -/
def parseItems : Nat → List Char → List Json → Option (Json × List Char)
  | 0, _, _ => none
  | fuel + 1, s, acc =>
    match parseValue fuel s with
    | none => none
    | some (v, rest) =>
      match skipWs rest with
      | ',' :: rest2 => parseItems fuel rest2 (acc ++ [v])
      | ']' :: rest2 => some (Json.arr (acc ++ [v]), rest2)
      | _ => none

end

/-- Parse completion text as a single JSON document.  Modelled from the
spec: the output parser attempts to parse the returned text as JSON
(spec section 4.2); text that is not valid JSON raises, and that raise
surfaces to the handler as exception text. -/
def parseJsonText (text : String) : Except String Json :=
  match parseValue (text.length + 1) text.data with
  | none => Except.error ("Invalid json output: " ++ text)
  | some (j, rest) =>
    match skipWs rest with
    | [] => Except.ok j
    | _ => Except.error ("Invalid json output: " ++ text)

/-- First string value bound to key k in a parsed object; none when the
key is absent or its value is not a string. -/
def getStrField (fields : List (String × Json)) (k : String) : Option String :=
  match fields with
  | [] => none
  | (k2, v) :: rest =>
    if k2 = k then
      match v with
      | Json.str s => some s
      | _ => none
    else getStrField rest k

/-- Validate a parsed JSON document against the AnalysisOutput schema,
extracting the four text fields verbatim.  Modelled from the spec: the
output parser is linked to the AnalysisOutput model (src/main.py line
59) and parsing is "against the schema" (spec sections 4.2 and 7); a
document that does not match the expected fields raises on the same
path as invalid JSON. -/
def parseAnalysisOutput (j : Json) : Except String AnalysisOutput :=
  match j with
  | Json.obj fields =>
    match getStrField fields "time", getStrField fields "timeExplanation",
          getStrField fields "space", getStrField fields "spaceExplanation" with
    | some t, some te, some s, some se => Except.ok ⟨t, te, s, se⟩
    | _, _, _, _ => Except.error "Output object is missing expected fields"
  | _ => Except.error "Output is not a JSON object"

/-- The parse stage of the chain: completion text to AnalysisOutput,
either parse failure raising as exception text. -/
def parseOutput (text : String) : Except String AnalysisOutput :=
  match parseJsonText text with
  | Except.error e => Except.error e
  | Except.ok j => parseAnalysisOutput j

/-- Modelled from the spec: the machine-readable format instructions
derived from the schema (parser.get_format_instructions() spliced in at
src/main.py lines 80-82), a fixed text naming the field names and types
of the required structure.  Its exact wording is library-generated and
not under src/; the claims only need it to be a fixed text spliced into
the system message. -/
def formatInstructions : String :=
  "Return a JSON object with exactly these string fields: time, timeExplanation, space, spaceExplanation."

/-- The system message template, text copied from src/main.py lines
63-69. -/
def systemTemplate : String :=
  "\nYou are an expert algorithm analyst. Your sole purpose is to analyze a given code snippet and return its time and space complexity in Big O notation.\n\nYou MUST provide your output *only* in the following JSON format. Do not include *any* other text, markdown, greetings, or explanations outside of the JSON structure.\n\n{format_instructions}\n"

/-- The human message template, text copied from src/main.py lines
70-76. -/
def humanTemplate : String :=
  "\nAnalyze the following code snippet, written in {language}:\n\n<code>\n{code}\n</code>\n"

/-- Value bound to a template variable (first binding wins); formatting
splices the bound text verbatim. -/
def substVar (vars : List (String × String)) (name : String) : String :=
  match vars with
  | [] => ""
  | (k, v) :: rest => if name = k then v else substVar rest name

/-- Single left-to-right pass of f-string style formatting over the
template characters: text between an opening and a closing brace names
a variable and is replaced by its bound value; spliced values are never
rescanned.  The Option argument holds the variable name read so far
when scanning inside braces. -/
def formatTemplateAux (vars : List (String × String)) :
    List Char → Option (List Char) → List Char
  | [], _ => []
  | c :: rest, none =>
    if c = '\x7b' then formatTemplateAux vars rest (some [])
    else c :: formatTemplateAux vars rest none
  | c :: rest, some acc =>
    if c = '\x7d' then
      (substVar vars (String.mk acc)).data ++ formatTemplateAux vars rest none
    else formatTemplateAux vars rest (some (acc ++ [c]))

/-- Format one message template with the bound variable values. -/
def formatTemplate (vars : List (String × String)) (tmpl : String) : String :=
  String.mk (formatTemplateAux vars tmpl.data none)

/-- The variable values in scope when the chain formats the prompt:
format_instructions is bound once at startup (src/main.py lines 80-82),
language and code per request (src/main.py lines 125-128). -/
def promptVars (language code : String) : List (String × String) :=
  [("format_instructions", formatInstructions),
   ("language", language), ("code", code)]

/-- Render the chat prompt of src/main.py lines 62-82: the (role, text)
messages produced by formatting both templates with the bound values. -/
def renderPrompt (language code : String) : List (String × String) :=
  [("system", formatTemplate (promptVars language code) systemTemplate),
   ("human", formatTemplate (promptVars language code) humanTemplate)]

/-- One invocation of the chain formatted_prompt | model | parser
(src/main.py lines 91 and 125-128) against a remote model: render the
prompt, submit it, parse the completion text; exception text from the
remote call or from the parse propagates as the raised error. -/
def chainInvoke (remote : List (String × String) → Except String String)
    (input : CodeInput) : Except String AnalysisOutput :=
  match remote (renderPrompt input.language input.code) with
  | Except.error e => Except.error e
  | Except.ok text => parseOutput text

/-- The GET / handler (src/main.py lines 97-108): a fixed health-check
text. -/
def read_root : String :=
  "\n    <html>\n        <head>\n            <title>Welcome UpTimeRobot</title>\n        </head>\n        <body>\n            <h1>Hi UptimeRobot ;)</h1>\n        </body>\n    </html>\n    "

/-- Modelled from the spec: GET / always succeeds (spec section 6), so
the framework wraps the returned text in an HTTP 200 response whatever
the request headers and body are; the handler itself reads nothing from
the request. -/
def readRootRoute (_headers : List (String × String)) (_body : String) :
    Nat × String :=
  (200, read_root)

/-- Modelled from the spec: FastAPI validates the POST /analyze JSON
body against the CodeInput model (src/main.py lines 15-18 and 111)
before the handler runs — the body must be a JSON object carrying
string values under the keys code and language, which are bound
verbatim; anything else is rejected. -/
def validateCodeInput (body : Json) : Except String CodeInput :=
  match body with
  | Json.obj fields =>
    match getStrField fields "code", getStrField fields "language" with
    | some c, some l => Except.ok ⟨c, l⟩
    | _, _ => Except.error "422 Unprocessable Entity: body does not match CodeInput"
  | _ => Except.error "422 Unprocessable Entity: body is not a JSON object"

/-- Whether a JSON value is an object binding key k to a string. -/
def hasStringField (body : Json) (k : String) : Bool :=
  match body with
  | Json.obj fields =>
    match getStrField fields k with
    | some _ => true
    | none => false
  | _ => false

/-- The POST /analyze route: validate the body, then run analyze_code
(with its instrumentation) on the validated input; a validation error
rejects the request before the handler runs, so no result value and no
chain call is produced. -/
def analyzeEndpoint (chain : Option (CodeInput → Except String AnalysisOutput))
    (body : Json) :
    Except String (AnalysisOutput × List CodeInput × List String) :=
  match validateCodeInput body with
  | Except.error e => Except.error e
  | Except.ok input => Except.ok (analyzeRun chain input)

/-- A remote model stub whose completion is the round-trip document of
spec section 8. -/
def remoteRoundTrip : List (String × String) → Except String String :=
  fun _ =>
    Except.ok "\x7b\"time\":\"O(n)\",\"timeExplanation\":\"single pass\",\"space\":\"O(1)\",\"spaceExplanation\":\"constant extra memory\"\x7d"

/-- A chain stub whose invocation always raises the exception text
boom. -/
def alwaysRaises : CodeInput → Except String AnalysisOutput :=
  fun _ => Except.error "boom"

/-- A remote model stub whose completion is prose, not JSON. -/
def remoteInvalidJson : List (String × String) → Except String String :=
  fun _ => Except.ok "Sure! Here is the analysis you asked for."

/-- A remote model stub whose completion is valid JSON that does not
match the four-field schema. -/
def remoteSchemaMismatch : List (String × String) → Except String String :=
  fun _ => Except.ok "\x7b\"time\":\"O(n)\",\"wrong\":true\x7d"

/-- A remote model stub whose completion carries malformed field text,
to observe verbatim pass-through. -/
def remoteMalformedBigO : List (String × String) → Except String String :=
  fun _ =>
    Except.ok "\x7b\"time\":\"banana\",\"timeExplanation\":\"\",\"space\":\"???\",\"spaceExplanation\":\"12345\"\x7d"

/-- A remote model stub whose completion fills all four schema fields
with empty strings. -/
def remoteEmptyFields : List (String × String) → Except String String :=
  fun _ =>
    Except.ok "\x7b\"time\":\"\",\"timeExplanation\":\"\",\"space\":\"\",\"spaceExplanation\":\"\"\x7d"

/-- A string built by appending to a non-empty left part is non-empty. -/
lemma append_ne_empty_left (s t : String) (h : s.data ≠ []) : s ++ t ≠ "" := by
  intro heq
  apply h
  have hd : (s ++ t).data = ("" : String).data := by rw [heq]
  rw [String.data_append] at hd
  exact (List.append_eq_nil.mp hd).1

/-- C1: for every chain configuration (configured or not) and every
well-typed input, analyze_code terminates with a value — never a raised
fault — whose response serialization is an object populated with
exactly the four text fields time, timeExplanation, space,
spaceExplanation, on every code path. -/
theorem analyze_code_always_wellformed
    (chain : Option (CodeInput → Except String AnalysisOutput))
    (input : CodeInput) :
    ∃ t te s se : String,
      (analyze_code chain input).toJson =
        Json.obj [("time", Json.str t), ("timeExplanation", Json.str te),
                  ("space", Json.str s), ("spaceExplanation", Json.str se)] :=
  ⟨_, _, _, _, rfl⟩

/-- C3: when the chain is None, analyze_code immediately returns the
fixed not-configured sentinel, performing zero chain invocations (hence
no network call), and the result is independent of the submitted code
and language. -/
theorem analyze_code_not_configured (input : CodeInput) :
    analyzeRun none input =
      (⟨"Error", "Server-side model is not configured.",
        "Error", "Please check the server logs."⟩, [], []) ∧
    analyze_code none input = notConfiguredResult :=
  ⟨rfl, rfl⟩

/-- C4: when the configured chain invocation raises exception text e,
analyze_code catches it, logs a diagnostic line, and returns exactly the
failure sentinel whose spaceExplanation is Server error: followed by
e. -/
theorem analyze_code_failure_sentinel
    (c : CodeInput → Except String AnalysisOutput) (input : CodeInput)
    (e : String) (h : c input = Except.error e) :
    analyzeRun (some c) input =
      (⟨"Error",
        "Failed to analyze code. The code may be incomplete or invalid.",
        "Error", "Server error: " ++ e⟩,
       [input], ["Error during analysis: " ++ e]) := by
  simp [analyzeRun, h, analysisFailureResult]

/-- Witness for C4 at the chain stub alwaysRaises and a concrete
input. -/
theorem analyze_code_failure_sentinel_witness :
    alwaysRaises ⟨"x", "python"⟩ = Except.error "boom" ∧
    analyzeRun (some alwaysRaises) ⟨"x", "python"⟩ =
      (⟨"Error",
        "Failed to analyze code. The code may be incomplete or invalid.",
        "Error", "Server error: boom"⟩,
       [⟨"x", "python"⟩], ["Error during analysis: boom"]) :=
  ⟨rfl, analyze_code_failure_sentinel alwaysRaises ⟨"x", "python"⟩ "boom" rfl⟩

/-- C5: with a remote model that answers the round-trip document for
the round-trip input, analyze_code returns exactly that four-field
object with all values unmodified. -/
theorem analyze_code_round_trip :
    analyze_code (some (chainInvoke remoteRoundTrip))
      ⟨"for i in range(n): pass", "python"⟩ =
      ⟨"O(n)", "single pass", "O(1)", "constant extra memory"⟩ := by
  rfl

/-- C6: whenever the remote completion text parses successfully, the
handler returns the parsed result exactly as the parser produced it,
with no further validation, filtering or alteration of field
content. -/
theorem analyze_code_success_verbatim
    (remote : List (String × String) → Except String String)
    (input : CodeInput) (text : String) (r : AnalysisOutput)
    (hremote : remote (renderPrompt input.language input.code) = Except.ok text)
    (hparse : parseOutput text = Except.ok r) :
    analyze_code (some (chainInvoke remote)) input = r := by
  simp [analyze_code, analyzeRun, chainInvoke, hremote, hparse]

/-- Witness for C6 at a remote stub returning malformed Big-O field
text, passed through verbatim. -/
theorem analyze_code_success_verbatim_witness :
    remoteMalformedBigO (renderPrompt "python" "while True: pass") =
      Except.ok "\x7b\"time\":\"banana\",\"timeExplanation\":\"\",\"space\":\"???\",\"spaceExplanation\":\"12345\"\x7d" ∧
    parseOutput "\x7b\"time\":\"banana\",\"timeExplanation\":\"\",\"space\":\"???\",\"spaceExplanation\":\"12345\"\x7d" =
      Except.ok ⟨"banana", "", "???", "12345"⟩ ∧
    analyze_code (some (chainInvoke remoteMalformedBigO))
      ⟨"while True: pass", "python"⟩ = ⟨"banana", "", "???", "12345"⟩ :=
  ⟨rfl, rfl,
   analyze_code_success_verbatim remoteMalformedBigO ⟨"while True: pass", "python"⟩
     _ _ rfl rfl⟩

/-- C2: when the remote call returns completion text whose parse fails
— whether the text is not valid JSON or is valid JSON that does not
match the four-field schema — analyze_code catches the raised parse
failure and returns the failure sentinel with time Error through the
one catch path, never a raised fault. -/
theorem analyze_code_parse_failure_caught
    (remote : List (String × String) → Except String String)
    (input : CodeInput) (text e : String)
    (hremote : remote (renderPrompt input.language input.code) = Except.ok text)
    (hparse : parseOutput text = Except.error e) :
    analyze_code (some (chainInvoke remote)) input = analysisFailureResult e ∧
    (analyze_code (some (chainInvoke remote)) input).time = "Error" := by
  refine ⟨?_, ?_⟩ <;>
    simp [analyze_code, analyzeRun, chainInvoke, hremote, hparse,
          analysisFailureResult]

/-- Witness for C2, covering both failure kinds through the same
theorem: a completion that is prose (invalid JSON) and a completion
that is valid JSON missing the schema fields. -/
theorem analyze_code_parse_failure_caught_witness :
    (parseOutput "Sure! Here is the analysis you asked for." =
       Except.error "Invalid json output: Sure! Here is the analysis you asked for." ∧
     analyze_code (some (chainInvoke remoteInvalidJson)) ⟨"x", "python"⟩ =
       analysisFailureResult "Invalid json output: Sure! Here is the analysis you asked for.") ∧
    (parseOutput "\x7b\"time\":\"O(n)\",\"wrong\":true\x7d" =
       Except.error "Output object is missing expected fields" ∧
     analyze_code (some (chainInvoke remoteSchemaMismatch)) ⟨"x", "python"⟩ =
       analysisFailureResult "Output object is missing expected fields") :=
  ⟨⟨rfl,
    (analyze_code_parse_failure_caught remoteInvalidJson ⟨"x", "python"⟩
      _ _ rfl rfl).1⟩,
   ⟨rfl,
    (analyze_code_parse_failure_caught remoteSchemaMismatch ⟨"x", "python"⟩
      _ _ rfl rfl).1⟩⟩

/-- C7 counterexample: with a configured chain whose remote model
returns the four schema fields as empty strings, analyze_code for the
valid input (code x, language python) returns an object whose field
values are all empty, so the non-emptiness part of the claim is false
for this input. -/
theorem analyze_code_nonempty_counterexample :
    analyze_code (some (chainInvoke remoteEmptyFields)) ⟨"x", "python"⟩ =
      ⟨"", "", "", ""⟩ ∧
    ¬ ((analyze_code (some (chainInvoke remoteEmptyFields))
          ⟨"x", "python"⟩).time ≠ "") := by
  refine ⟨by rfl, ?_⟩
  intro h
  exact h (by rfl)

/-- C7 amended: for every chain configuration and valid input, the
response carries exactly the four text fields; on the not-configured
path and on the failure path every populated field is non-empty, while
on the success path the field values are the parsed model output passed
through verbatim, which may be empty. -/
theorem analyze_code_fields_amended
    (chain : Option (CodeInput → Except String AnalysisOutput))
    (input : CodeInput) :
    (∃ t te s se : String,
      (analyze_code chain input).toJson =
        Json.obj [("time", Json.str t), ("timeExplanation", Json.str te),
                  ("space", Json.str s), ("spaceExplanation", Json.str se)]) ∧
    (chain = none → analyze_code chain input = notConfiguredResult ∧
      (analyze_code chain input).time ≠ "" ∧
      (analyze_code chain input).timeExplanation ≠ "" ∧
      (analyze_code chain input).space ≠ "" ∧
      (analyze_code chain input).spaceExplanation ≠ "") ∧
    (∀ c e, chain = some c → c input = Except.error e →
      analyze_code chain input = analysisFailureResult e ∧
      (analyze_code chain input).time ≠ "" ∧
      (analyze_code chain input).timeExplanation ≠ "" ∧
      (analyze_code chain input).space ≠ "" ∧
      (analyze_code chain input).spaceExplanation ≠ "") ∧
    (∀ c r, chain = some c → c input = Except.ok r →
      analyze_code chain input = r) := by
  refine ⟨⟨_, _, _, _, rfl⟩, ?_, ?_, ?_⟩
  · rintro rfl
    refine ⟨rfl, ?_, ?_, ?_, ?_⟩ <;>
      simp [analyze_code, analyzeRun, notConfiguredResult]
  · rintro c e rfl hc
    have hres : analyze_code (some c) input = analysisFailureResult e := by
      simp [analyze_code, analyzeRun, hc]
    refine ⟨hres, ?_, ?_, ?_, ?_⟩ <;> rw [hres]
    · simp [analysisFailureResult]
    · simp [analysisFailureResult]
    · simp [analysisFailureResult]
    · show "Server error: " ++ e ≠ ""
      exact append_ne_empty_left _ _ (by decide)
  · rintro c r rfl hc
    simp [analyze_code, analyzeRun, hc]

/-- Witness for the amended C7 at the not-configured chain and at the
raising chain stub. -/
theorem analyze_code_fields_amended_witness :
    (analyze_code none ⟨"print(1)", "python"⟩).time ≠ "" ∧
    (analyze_code (some alwaysRaises) ⟨"print(1)", "python"⟩).spaceExplanation ≠ "" :=
  ⟨((analyze_code_fields_amended none ⟨"print(1)", "python"⟩).2.1 rfl).2.1,
   ((analyze_code_fields_amended (some alwaysRaises) ⟨"print(1)", "python"⟩).2.2.1
      alwaysRaises "boom" rfl rfl).2.2.2.2⟩

/-- Template text free of opening braces passes through formatting
unchanged, ahead of whatever follows it. -/
lemma formatTemplateAux_literal (vars : List (String × String))
    (a rest : List Char) (h : '\x7b' ∉ a) :
    formatTemplateAux vars (a ++ rest) none =
      a ++ formatTemplateAux vars rest none := by
  induction a with
  | nil => simp
  | cons c cs ih =>
    simp only [List.mem_cons, not_or] at h
    obtain ⟨h1, h2⟩ := h
    have hc : ¬ (c = '\x7b') := fun hh => h1 hh.symm
    rw [List.cons_append]
    simp only [formatTemplateAux]
    rw [if_neg hc, ih h2]
    rfl

/-- Scanning inside braces consumes the variable name up to the closing
brace and splices the bound value ahead of the rest of the scan. -/
lemma formatTemplateAux_varAux (vars : List (String × String))
    (name : List Char) (h : '\x7d' ∉ name) :
    ∀ acc rest : List Char,
      formatTemplateAux vars (name ++ '\x7d' :: rest) (some acc) =
        (substVar vars (String.mk (acc ++ name))).data ++
          formatTemplateAux vars rest none := by
  induction name with
  | nil =>
    intro acc rest
    simp [formatTemplateAux]
  | cons c cs ih =>
    intro acc rest
    simp only [List.mem_cons, not_or] at h
    obtain ⟨h1, h2⟩ := h
    have hc : ¬ (c = '\x7d') := fun hh => h1 hh.symm
    rw [List.cons_append]
    simp only [formatTemplateAux]
    rw [if_neg hc, ih h2 (acc ++ [c]) rest]
    simp

/-- An opening brace starts variable substitution: the name up to the
closing brace is replaced by its bound value. -/
lemma formatTemplateAux_var (vars : List (String × String))
    (name rest : List Char) (h : '\x7d' ∉ name) :
    formatTemplateAux vars ('\x7b' :: (name ++ '\x7d' :: rest)) none =
      (substVar vars (String.mk name)).data ++
        formatTemplateAux vars rest none := by
  simp only [formatTemplateAux, if_pos]
  rw [formatTemplateAux_varAux vars name h [] rest]
  simp

set_option maxRecDepth 8192 in
/-- C8: prompt construction is a pure function of (language, code): the
rendered messages are exactly the fixed system instruction with the
format instructions spliced in, plus a human message embedding the
literal language label and the literal code text wrapped in the
distinct <code> and </code> delimiters, with no other transformation of
the inputs. -/
theorem renderPrompt_embeds_literally (language code : String) :
    renderPrompt language code =
      [("system",
        "\nYou are an expert algorithm analyst. Your sole purpose is to analyze a given code snippet and return its time and space complexity in Big O notation.\n\nYou MUST provide your output *only* in the following JSON format. Do not include *any* other text, markdown, greetings, or explanations outside of the JSON structure.\n\n"
          ++ formatInstructions ++ "\n"),
       ("human",
        "\nAnalyze the following code snippet, written in " ++ language
          ++ ":\n\n<code>\n" ++ code ++ "\n</code>\n")] := by
  have hvars : substVar (promptVars language code) "format_instructions" =
      formatInstructions := by
    simp [promptVars, substVar]
  have hlang : substVar (promptVars language code) "language" = language := by
    simp [promptVars, substVar]
  have hcode : substVar (promptVars language code) "code" = code := by
    simp [promptVars, substVar]
  have hnl : formatTemplateAux (promptVars language code) "\n".data none =
      "\n".data := by
    have h0 := formatTemplateAux_literal (promptVars language code)
      "\n".data [] (by decide)
    simpa using h0
  have hS : formatTemplate (promptVars language code) systemTemplate =
      "\nYou are an expert algorithm analyst. Your sole purpose is to analyze a given code snippet and return its time and space complexity in Big O notation.\n\nYou MUST provide your output *only* in the following JSON format. Do not include *any* other text, markdown, greetings, or explanations outside of the JSON structure.\n\n"
        ++ formatInstructions ++ "\n" := by
    apply String.ext
    show formatTemplateAux (promptVars language code) systemTemplate.data none = _
    rw [show systemTemplate.data =
          "\nYou are an expert algorithm analyst. Your sole purpose is to analyze a given code snippet and return its time and space complexity in Big O notation.\n\nYou MUST provide your output *only* in the following JSON format. Do not include *any* other text, markdown, greetings, or explanations outside of the JSON structure.\n\n".data
          ++ '\x7b' :: ("format_instructions".data ++ '\x7d' :: "\n".data)
        from rfl]
    rw [formatTemplateAux_literal _ _ _ (by decide),
        formatTemplateAux_var _ _ _ (by decide), hvars, hnl]
    simp [String.data_append]
  have hH : formatTemplate (promptVars language code) humanTemplate =
      "\nAnalyze the following code snippet, written in " ++ language
        ++ ":\n\n<code>\n" ++ code ++ "\n</code>\n" := by
    apply String.ext
    show formatTemplateAux (promptVars language code) humanTemplate.data none = _
    rw [show humanTemplate.data =
          "\nAnalyze the following code snippet, written in ".data
          ++ '\x7b' :: ("language".data ++ '\x7d' ::
            (":\n\n<code>\n".data ++ '\x7b' :: ("code".data ++ '\x7d' ::
              "\n</code>\n".data)))
        from rfl]
    rw [formatTemplateAux_literal _ _ _ (by decide),
        formatTemplateAux_var _ _ _ (by decide), hlang,
        formatTemplateAux_literal _ _ _ (by decide),
        formatTemplateAux_var _ _ _ (by decide), hcode]
    have hpost : formatTemplateAux (promptVars language code)
        "\n</code>\n".data none = "\n</code>\n".data := by
      have h0 := formatTemplateAux_literal (promptVars language code)
        "\n</code>\n".data [] (by decide)
      simpa using h0
    rw [hpost]
    simp [String.data_append]
  simp only [renderPrompt]
  rw [hS, hH]

set_option maxRecDepth 8192 in
/-- C9: the GET / route ignores the request entirely: it answers HTTP
200 with the fixed health-check text, whose content contains the
literal text UptimeRobot. -/
theorem read_root_health (headers : List (String × String)) (body : String) :
    readRootRoute headers body = (200, read_root) ∧
    ∃ a b : String, read_root = a ++ "UptimeRobot" ++ b := by
  refine ⟨rfl,
    "\n    <html>\n        <head>\n            <title>Welcome UpTimeRobot</title>\n        </head>\n        <body>\n            <h1>Hi ",
    " ;)</h1>\n        </body>\n    </html>\n    ", ?_⟩
  decide

/-- C10: a request body that is missing the code field or the language
field, or binds either to a non-string value, is rejected by CodeInput
validation before analyze_code runs: the route yields a validation
error and no AnalysisOutput value, no chain call and no log line is
produced. -/
theorem analyzeEndpoint_rejects_invalid_body
    (chain : Option (CodeInput → Except String AnalysisOutput)) (body : Json)
    (h : hasStringField body "code" = false ∨
         hasStringField body "language" = false) :
    ∃ e, analyzeEndpoint chain body = Except.error e := by
  cases body with
  | obj fields =>
    cases hcode : getStrField fields "code" with
    | none =>
      exact ⟨"422 Unprocessable Entity: body does not match CodeInput",
        by simp [analyzeEndpoint, validateCodeInput, hcode]⟩
    | some c =>
      cases hlang : getStrField fields "language" with
      | none =>
        exact ⟨"422 Unprocessable Entity: body does not match CodeInput",
          by simp [analyzeEndpoint, validateCodeInput, hcode, hlang]⟩
      | some l =>
        exfalso
        rcases h with h | h <;> simp [hasStringField, hcode, hlang] at h
  | str s =>
    exact ⟨"422 Unprocessable Entity: body is not a JSON object",
      by simp [analyzeEndpoint, validateCodeInput]⟩
  | num n =>
    exact ⟨"422 Unprocessable Entity: body is not a JSON object",
      by simp [analyzeEndpoint, validateCodeInput]⟩
  | bool b =>
    exact ⟨"422 Unprocessable Entity: body is not a JSON object",
      by simp [analyzeEndpoint, validateCodeInput]⟩
  | null =>
    exact ⟨"422 Unprocessable Entity: body is not a JSON object",
      by simp [analyzeEndpoint, validateCodeInput]⟩
  | arr items =>
    exact ⟨"422 Unprocessable Entity: body is not a JSON object",
      by simp [analyzeEndpoint, validateCodeInput]⟩

/-- Witness for C10 at a body that binds language but not code, and at
a body whose code value is a number. -/
theorem analyzeEndpoint_rejects_invalid_body_witness :
    (hasStringField (Json.obj [("language", Json.str "python")]) "code" = false ∧
     ∃ e, analyzeEndpoint none (Json.obj [("language", Json.str "python")]) =
       Except.error e) ∧
    (hasStringField
        (Json.obj [("code", Json.num "3"), ("language", Json.str "python")])
        "code" = false ∧
     ∃ e, analyzeEndpoint none
        (Json.obj [("code", Json.num "3"), ("language", Json.str "python")]) =
       Except.error e) :=
  ⟨⟨by decide,
    analyzeEndpoint_rejects_invalid_body none
      (Json.obj [("language", Json.str "python")]) (Or.inl (by decide))⟩,
   ⟨by decide,
    analyzeEndpoint_rejects_invalid_body none
      (Json.obj [("code", Json.num "3"), ("language", Json.str "python")])
      (Or.inl (by decide))⟩⟩
